import Mathlib

/-!
# Verification of the embedded PDF generator (`src/main.py`)

Shallow embedding of the TrueType-font reader (`TTFFont`) and the PDF
compositor/serializer (`SimplePDFGenerator`) of the repository, together
with proofs settling the frozen claims about them.

Modelling conventions:
* Python `bytes` values are `List ℕ` (each entry one byte, `< 256` where
  produced by the parser's `struct.unpack` reads).
* `struct.unpack` on a slice of the wrong length raises `struct.error`;
  reads are therefore modelled in `Except Unit`, erroring exactly when the
  requested slice `data[off : off+k]` is shorter than `k`.
* Python `dict` is an association list with in-place update (`dinsert`),
  preserving the "last write wins" lookup semantics.
* Python `float` arithmetic on layout widths is modelled over `ℚ`; the
  literal `1.2` is modelled as `6/5`.  All concrete values appearing in the
  claims are far from any rounding boundary, so the `ℚ` model agrees with
  the IEEE double computation on every value a claim touches.
* ASCII strings written into the PDF are kept as `String` and converted to
  bytes with `asciiBytes` at serialization time (all generated strings are
  ASCII, so one character is one byte).
-/

namespace PdfGen

/-- Bytes of an ASCII string (`str.encode('ascii')` in the source). -/
def asciiBytes (s : String) : List ℕ := s.data.map Char.toNat

/-- `struct.unpack('>H', data[pos:pos+2])`: big-endian uint16, raising
(`Except.error`) when the slice is short. -/
def readU16 (data : List ℕ) (pos : ℕ) : Except Unit ℕ :=
  if pos + 2 ≤ data.length then
    .ok (256 * data.getD pos 0 + data.getD (pos + 1) 0)
  else .error ()

/-- `struct.unpack('>h', data[pos:pos+2])`: big-endian int16. -/
def readI16 (data : List ℕ) (pos : ℕ) : Except Unit ℤ :=
  match readU16 data pos with
  | .error e => .error e
  | .ok v => .ok (if v < 32768 then (v : ℤ) else (v : ℤ) - 65536)

/-- `struct.unpack('>I', data[pos:pos+4])`: big-endian uint32. -/
def readU32 (data : List ℕ) (pos : ℕ) : Except Unit ℕ :=
  if pos + 4 ≤ data.length then
    .ok (16777216 * data.getD pos 0 + 65536 * data.getD (pos + 1) 0 +
         256 * data.getD (pos + 2) 0 + data.getD (pos + 3) 0)
  else .error ()

/-- Python `dict` insertion `m[k] = v` on an association list: replaces the
binding in place when the key exists, appends otherwise. -/
def dinsert {α β : Type} [DecidableEq α] (k : α) (v : β) :
    List (α × β) → List (α × β)
  | [] => [(k, v)]
  | (a, b) :: rest => if a = k then (k, v) :: rest else (a, b) :: dinsert k v rest

/-- Python `dict` lookup `m.get(k)` on an association list. -/
def dlookup {α β : Type} [DecidableEq α] (k : α) : List (α × β) → Option β
  | [] => none
  | (a, b) :: rest => if k = a then some b else dlookup k rest

/-- In-memory model of a parsed `TTFFont` instance (`src/main.py:2448`). -/
structure TTFFont where
  data : List ℕ
  units_per_em : ℕ
  ascent : ℤ
  descent : ℤ
  cap_height : ℤ
  bbox : ℤ × ℤ × ℤ × ℤ
  advance_widths : List ℕ
  cmap : List (ℕ × ℕ)
  gid_to_unicode : List (ℕ × ℕ)
  num_metrics : ℕ
  deriving DecidableEq, Repr

/-- `TTFFont.get_gid` (`src/main.py:2587`): `self.cmap.get(char_code, 0)`. -/
def TTFFont.get_gid (f : TTFFont) (char_code : ℕ) : ℕ :=
  (dlookup char_code f.cmap).getD 0

/-- `TTFFont.get_width` (`src/main.py:2590`): width of a glyph id with
fallback to the last recorded width, then to 1000. -/
def TTFFont.get_width (f : TTFFont) (gid : ℕ) : ℕ :=
  if h : gid < f.advance_widths.length then f.advance_widths.get ⟨gid, h⟩
  else
    match f.advance_widths.getLast? with
    | some w => w
    | none => 1000

/-- The two dictionaries filled by `_parse_cmap_format_4`
(`self.cmap` and `self.gid_to_unicode`). -/
structure CmapAcc where
  cmap : List (ℕ × ℕ)
  inv : List (ℕ × ℕ)
  deriving DecidableEq, Repr

/-- Glyph-id computation for one codepoint inside a format-4 segment
(`src/main.py:2570-2581`).  `iroLoc` is `range_off_loc`, the file position
of this segment's `idRangeOffset` entry. -/
def gidFor (data : List ℕ) (offset length iroLoc : ℕ) (delta : ℤ)
    (rangeOff start cc : ℕ) : Except Unit ℕ :=
  if rangeOff = 0 then
    .ok ((((cc : ℤ) + delta).emod 65536).toNat)
  else
    let addr := iroLoc + rangeOff + (cc - start) * 2
    if offset + length ≤ addr then .ok 0
    else
      match readU16 data addr with
      | .error e => .error e
      | .ok g =>
        .ok (if g ≠ 0 then (((g : ℤ) + delta).emod 65536).toNat else g)

/-- Inner loop of `_parse_cmap_format_4`: maps the `n` codepoints
`cc, cc+1, ...` of one segment, skipping computed glyph id 0
(`src/main.py:2569-2585`). -/
def mapChars (data : List ℕ) (offset length iroLoc : ℕ) (delta : ℤ)
    (rangeOff start : ℕ) : ℕ → ℕ → CmapAcc → Except Unit CmapAcc
  | _, 0, acc => .ok acc
  | cc, n + 1, acc =>
    match gidFor data offset length iroLoc delta rangeOff start cc with
    | .error e => .error e
    | .ok gid =>
      mapChars data offset length iroLoc delta rangeOff start (cc + 1) n
        (if gid ≠ 0 then
          CmapAcc.mk (dinsert cc gid acc.cmap) (dinsert gid cc acc.inv)
        else acc)

/-- Outer loop of `_parse_cmap_format_4` over the parsed segments, with the
`start == 0xFFFF` sentinel break (`src/main.py:2561-2585`). -/
def mapSegs (data : List ℕ) (offset length iroStart : ℕ) :
    ℕ → List (ℕ × ℕ × ℤ × ℕ) → CmapAcc → Except Unit CmapAcc
  | _, [], acc => .ok acc
  | i, (s, e, d, ro) :: rest, acc =>
    if s = 65535 then .ok acc
    else
      match mapChars data offset length (iroStart + i * 2) d ro s s
        (e + 1 - s) acc with
      | .error e2 => .error e2
      | .ok acc2 => mapSegs data offset length iroStart (i + 1) rest acc2

/-- Reads `n` consecutive big-endian uint16 values starting at `pos`
(stride 2), as in the four array-reading loops of `_parse_cmap_format_4`. -/
def readU16Arr (data : List ℕ) : ℕ → ℕ → Except Unit (List ℕ)
  | _, 0 => .ok []
  | pos, n + 1 =>
    match readU16 data pos with
    | .error e => .error e
    | .ok v =>
      match readU16Arr data (pos + 2) n with
      | .error e => .error e
      | .ok rest => .ok (v :: rest)

/-- Reads `n` consecutive big-endian int16 values starting at `pos`. -/
def readI16Arr (data : List ℕ) : ℕ → ℕ → Except Unit (List ℤ)
  | _, 0 => .ok []
  | pos, n + 1 =>
    match readI16 data pos with
    | .error e => .error e
    | .ok v =>
      match readI16Arr data (pos + 2) n with
      | .error e => .error e
      | .ok rest => .ok (v :: rest)

/-- Zips the four parallel segment arrays into one segment list. -/
def zipSegs : List ℕ → List ℕ → List ℤ → List ℕ → List (ℕ × ℕ × ℤ × ℕ)
  | s :: ss, e :: es, d :: ds, r :: rs => (s, e, d, r) :: zipSegs ss es ds rs
  | _, _, _, _ => []

/-- `TTFFont._parse_cmap_format_4` (`src/main.py:2532-2585`), starting from
the empty dictionaries the instance holds when `_parse` runs. -/
def parse_cmap_format_4 (data : List ℕ) (offset : ℕ) :
    Except Unit CmapAcc :=
  match readU16 data (offset + 2) with
  | .error e => .error e
  | .ok length =>
    match readU16 data (offset + 6) with
    | .error e => .error e
    | .ok segCountX2 =>
      match readU16Arr data (offset + 14) (segCountX2 / 2) with
      | .error e => .error e
      | .ok endCounts =>
        match readU16Arr data (offset + 14 + segCountX2 + 2)
          (segCountX2 / 2) with
        | .error e => .error e
        | .ok startCounts =>
          match readI16Arr data (offset + 14 + segCountX2 + 2 + segCountX2)
            (segCountX2 / 2) with
          | .error e => .error e
          | .ok idDeltas =>
            match readU16Arr data (offset + 14 + segCountX2 * 3 + 2)
              (segCountX2 / 2) with
            | .error e => .error e
            | .ok idRangeOffsets =>
              mapSegs data offset length (offset + 14 + segCountX2 * 3 + 2) 0
                (zipSegs startCounts endCounts idDeltas idRangeOffsets)
                (CmapAcc.mk [] [])

/-- One pass of the table-directory loop in `TTFFont._parse`
(`src/main.py:2472-2478`): tag bytes, then `>III` checksum/offset/length. -/
def readTables (data : List ℕ) :
    ℕ → ℕ → List (List ℕ × ℕ × ℕ) → Except Unit (List (List ℕ × ℕ × ℕ))
  | _, 0, acc => .ok acc
  | off, n + 1, acc =>
    match readU32 data (off + 4) with
    | .error e => .error e
    | .ok _cksum =>
      match readU32 data (off + 8) with
      | .error e => .error e
      | .ok toff =>
        match readU32 data (off + 12) with
        | .error e => .error e
        | .ok tlen =>
          readTables data (off + 16) n
            (dinsert ((data.drop off).take 4) (toff, tlen) acc)

/-- Byte tags of the four tables the parser uses. -/
def headTag : List ℕ := asciiBytes "head"

def hheaTag : List ℕ := asciiBytes "hhea"

def hmtxTag : List ℕ := asciiBytes "hmtx"

def cmapTag : List ℕ := asciiBytes "cmap"

/-- `TTFFont._parse_head` (`src/main.py:2485-2490`): `unitsPerEm` and the
bounding box, keeping the defaults when the table is absent. -/
def parse_head (data : List ℕ) (tables : List (List ℕ × ℕ × ℕ)) :
    Except Unit (ℕ × (ℤ × ℤ × ℤ × ℤ)) :=
  match dlookup headTag tables with
  | none => .ok (1000, (0, 0, 0, 0))
  | some (off, _) =>
    match readU16 data (off + 18) with
    | .error e => .error e
    | .ok upem =>
      match readI16 data (off + 36) with
      | .error e => .error e
      | .ok xMin =>
        match readI16 data (off + 38) with
        | .error e => .error e
        | .ok yMin =>
          match readI16 data (off + 40) with
          | .error e => .error e
          | .ok xMax =>
            match readI16 data (off + 42) with
            | .error e => .error e
            | .ok yMax => .ok (upem, (xMin, yMin, xMax, yMax))

/-- `TTFFont._parse_hhea` (`src/main.py:2492-2496`): ascent, descent and
`numberOfHMetrics`, defaults when absent. -/
def parse_hhea (data : List ℕ) (tables : List (List ℕ × ℕ × ℕ)) :
    Except Unit (ℤ × ℤ × ℕ) :=
  match dlookup hheaTag tables with
  | none => .ok (0, 0, 0)
  | some (off, _) =>
    match readI16 data (off + 4) with
    | .error e => .error e
    | .ok asc =>
      match readI16 data (off + 6) with
      | .error e => .error e
      | .ok desc =>
        match readU16 data (off + 34) with
        | .error e => .error e
        | .ok nm => .ok (asc, desc, nm)

/-- The `hmtx` record loop (`src/main.py:2503-2505`): each iteration is one
`>Hh` unpack of 4 bytes at `off + i*4`; only the advance width is kept. -/
def readHmtx (data : List ℕ) : ℕ → ℕ → Except Unit (List ℕ)
  | _, 0 => .ok []
  | off, n + 1 =>
    match readU16 data off with
    | .error e => .error e
    | .ok aw =>
      match readI16 data (off + 2) with
      | .error e => .error e
      | .ok _lsb =>
        match readHmtx data (off + 4) n with
        | .error e => .error e
        | .ok rest => .ok (aw :: rest)

/-- `TTFFont._parse_hmtx` (`src/main.py:2498-2505`). -/
def parse_hmtx (data : List ℕ) (tables : List (List ℕ × ℕ × ℕ))
    (num_metrics : ℕ) : Except Unit (List ℕ) :=
  match dlookup hmtxTag tables with
  | none => .ok []
  | some (off, _) => readHmtx data off num_metrics

/-- Subtable-selection loop of `_parse_cmap` (`src/main.py:2516-2524`):
prefer the first platform 3 / encoding 1 or 10 subtable (break), otherwise
remember the last platform 0 subtable seen. -/
def findSubtable (data : List ℕ) (off : ℕ) :
    ℕ → ℕ → ℕ → Except Unit ℕ
  | _, 0, cand => .ok cand
  | i, n + 1, cand =>
    match readU16 data (off + 4 + i * 8) with
    | .error e2 => .error e2
    | .ok p =>
      match readU16 data (off + 4 + i * 8 + 2) with
      | .error e2 => .error e2
      | .ok e =>
        match readU32 data (off + 4 + i * 8 + 4) with
        | .error e2 => .error e2
        | .ok s =>
          if p = 3 ∧ (e = 1 ∨ e = 10) then .ok (off + s)
          else findSubtable data off (i + 1) n
            (if p = 0 then off + s else cand)

/-- `TTFFont._parse_cmap` (`src/main.py:2510-2530`): empty maps when the
table or a usable subtable is missing or the subtable format is not 4. -/
def parse_cmap (data : List ℕ) (tables : List (List ℕ × ℕ × ℕ)) :
    Except Unit CmapAcc :=
  match dlookup cmapTag tables with
  | none => .ok (CmapAcc.mk [] [])
  | some (off, _) =>
    match readU16 data (off + 2) with
    | .error e => .error e
    | .ok numSub =>
      match findSubtable data off 0 numSub 0 with
      | .error e => .error e
      | .ok subOff =>
        if subOff = 0 then .ok (CmapAcc.mk [] [])
        else
          match readU16 data subOff with
          | .error e => .error e
          | .ok fmt =>
            if fmt = 4 then parse_cmap_format_4 data subOff
            else .ok (CmapAcc.mk [] [])

/-- `TTFFont.__init__` / `TTFFont._parse` (`src/main.py:2453-2483`): the
whole font parse as a fallible function of the raw bytes.  The error value
stands for the `struct.error`/`IndexError` the Python code raises on a
truncated read; no partially filled font is ever returned. -/
def ttfParse (data : List ℕ) : Except Unit TTFFont :=
  match readU16 data 4 with
  | .error e => .error e
  | .ok numTables =>
    match readTables data 12 numTables [] with
    | .error e => .error e
    | .ok tables =>
      match parse_head data tables with
      | .error e => .error e
      | .ok hd =>
        match parse_hhea data tables with
        | .error e => .error e
        | .ok hh =>
          match parse_hmtx data tables hh.2.2 with
          | .error e => .error e
          | .ok widths =>
            match parse_cmap data tables with
            | .error e => .error e
            | .ok cm =>
              .ok
                { data := data
                  units_per_em := hd.1
                  ascent := hh.1
                  descent := hh.2.1
                  cap_height := 0
                  bbox := hd.2
                  advance_widths := widths
                  cmap := cm.cmap
                  gid_to_unicode := cm.inv
                  num_metrics := hh.2.2 }

/-- The `try/except` around `TTFFont(self.font_path)` in
`SimplePDFGenerator.__init__` (`src/main.py:2620-2626`): a parse failure is
caught, printed and swallowed; the constructor returns normally with
`font_loaded = False` (`none` here) instead of propagating the error. -/
def pdfInitFont (data : List ℕ) : Option TTFFont :=
  match ttfParse data with
  | .ok f => some f
  | .error _ => none

/-- Test font used to instantiate claims: codepoint 65 ('A') maps to glyph
id 5 whose advance width is 600 font units, with `unitsPerEm = 1000`
(the font described by the spec's concrete scenario). -/
def testFontA : TTFFont :=
  { data := []
    units_per_em := 1000
    ascent := 800
    descent := -200
    cap_height := 0
    bbox := (-100, -200, 900, 800)
    advance_widths := [500, 500, 500, 500, 500, 600]
    cmap := [(65, 5)]
    gid_to_unicode := [(5, 65)]
    num_metrics := 6 }

/-- The newline character, `'\n'`. -/
def newlineChar : Char := Char.ofNat 10

/-- The space character `' '`. -/
def spaceChar : Char := Char.ofNat 32

/-- Python `str.split(sep)` for a single-character separator, on the
character list of the string: `"".split(sep) = [""]`, and every separator
occurrence produces a boundary (adjacent separators give empty pieces). -/
def splitOnChar (sep : Char) : List Char → List (List Char)
  | [] => [[]]
  | c :: rest =>
    let r := splitOnChar sep rest
    if c = sep then [] :: r
    else (c :: r.headD []) :: r.tail

/-- Uppercase hex digit. -/
def hexDigit (n : ℕ) : Char :=
  if n < 10 then Char.ofNat (48 + n) else Char.ofNat (55 + n)

/-- Python `f"{gid:04X}"` for the glyph ids written into content streams
and the ToUnicode CMap.  Every such value is `< 2^16` (cmap values are
masked with `0xFFFF` and `readU16` yields 16-bit values), so four digits
always suffice. -/
def hex4 (n : ℕ) : String :=
  String.mk [hexDigit (n / 4096 % 16), hexDigit (n / 256 % 16),
    hexDigit (n / 16 % 16), hexDigit (n % 16)]

/-- Mutable state of a `SimplePDFGenerator` (`src/main.py:2604-2636`) after
its font has loaded successfully.  (When loading fails the real object has
no `font` attribute and every later text or serialization call dies with an
`AttributeError`; that failure path is modelled by `pdfInitFont`.) -/
structure GenState where
  font : TTFFont
  pages_content : List String
  current_content : List String
  page_width : ℕ
  page_height : ℕ
  margin_left : ℕ
  margin_top : ℕ
  y : ℤ
  font_size : ℕ
  line_height : ℕ
  used_gids : Finset ℕ

/-- `_init_page_state` (`src/main.py:2638-2639`): the font-selection
instruction opening every page's content stream. -/
def initPageLine (font_size : ℕ) : String :=
  "BT /F1 " ++ toString font_size ++ " Tf\n"

/-- `SimplePDFGenerator.__init__` (`src/main.py:2604-2636`) on a loaded
font: Letter geometry, 50pt margins, size 10, line height 12, glyph id 0
pre-inserted into `used_gids`, first page opened. -/
def pdfGenInit (font : TTFFont) : GenState :=
  { font := font
    pages_content := []
    current_content := [initPageLine 10]
    page_width := 612
    page_height := 792
    margin_left := 50
    margin_top := 50
    y := (792 : ℤ) - 50
    font_size := 10
    line_height := 12
    used_gids := {0} }

/-- `_add_page` (`src/main.py:2641-2647`): seal the current content stream
(when non-empty) into `pages_content`, reset the cursor, open a new page. -/
def add_page (st : GenState) : GenState :=
  let st1 :=
    if st.current_content ≠ [] then
      { st with pages_content :=
          st.pages_content ++ [String.join st.current_content ++ "ET\n"] }
    else st
  { st1 with
    current_content := [initPageLine st1.font_size]
    y := (st1.page_height : ℤ) - st1.margin_top }

/-- `set_font_size` (`src/main.py:2649-2653`).  Python computes
`int(size * 1.2)`; for a non-negative size that truncation is the floor,
modelled here over `ℚ` with `1.2` as `6/5`. -/
def set_font_size (st : GenState) (size : ℕ) : GenState :=
  let st1 := { st with
    font_size := size
    line_height := ⌊(size : ℚ) * (6 / 5)⌋₊ }
  if st1.current_content ≠ [] then
    { st1 with current_content :=
        st1.current_content ++ ["/F1 " ++ toString size ++ " Tf\n"] }
  else st1

/-- `_write_line_gids` (`src/main.py:2715-2727`): no-op on an empty glyph
list; otherwise page-break if the cursor passed the bottom margin, then
emit one `Tm`/`Tj` instruction and advance the cursor. -/
def write_line_gids (st : GenState) (gids : List ℕ) : GenState :=
  if gids = [] then st
  else
    let st1 := if st.y < (st.margin_top : ℤ) then add_page st else st
    let hexStr := String.join (gids.map hex4)
    let cmd := "1 0 0 1 " ++ toString st1.margin_left ++ " " ++
      toString st1.y ++ " Tm <" ++ hexStr ++ "> Tj\n"
    { st1 with
      current_content := st1.current_content ++ [cmd]
      y := st1.y - st1.line_height }

/-- Gid/width accumulation for one word in `add_text`
(`src/main.py:2678-2696`): optional leading space (when not the first word
of the literal line), then the word's characters; every resolved glyph id
is recorded into `used_gids` as a side effect. -/
def buildWord (st : GenState) (scale : ℚ) (withSpace : Bool)
    (w : List Char) : GenState × List ℕ × ℚ :=
  let init :=
    if withSpace then
      let sg := st.font.get_gid 32
      ({ st with used_gids := insert sg st.used_gids }, ([sg],
        (st.font.get_width sg : ℚ) * scale))
    else (st, ([], 0))
  w.foldl
    (fun acc ch =>
      let gid := acc.1.font.get_gid ch.toNat
      ({ acc.1 with used_gids := insert gid acc.1.used_gids },
        (acc.2.1 ++ [gid],
          acc.2.2 + (acc.1.font.get_width gid : ℚ) * scale)))
    init

/-- The word loop of `add_text` (`src/main.py:2678-2713`): greedy wrap.
`i` is the `enumerate` index; a wrap flushes the current line first and
strips the word's leading space when it matches the space glyph. -/
def wordsLoop (scale maxWidth : ℚ) :
    ℕ → List (List Char) → GenState → List ℕ → ℚ → GenState
  | _, [], st, cur, _ => write_line_gids st cur
  | i, w :: ws, st, cur, curWidth =>
    let b := buildWord st scale (decide (0 < i)) w
    let st1 := b.1
    let wordGids := b.2.1
    let wordWidth := b.2.2
    if maxWidth < curWidth + wordWidth ∧ cur ≠ [] then
      let st2 := write_line_gids st1 cur
      let sg := st2.font.get_gid 32
      let stripped :=
        if wordGids.head? = some sg then
          (wordGids.drop 1, wordWidth - (st2.font.get_width sg : ℚ) * scale)
        else (wordGids, wordWidth)
      wordsLoop scale maxWidth (i + 1) ws st2 stripped.1 stripped.2
    else
      wordsLoop scale maxWidth (i + 1) ws st1 (cur ++ wordGids)
        (curWidth + wordWidth)

/-- One literal line of `add_text` (`src/main.py:2667-2713`): split on
single spaces, run the word loop, flush the final line. -/
def processLine (scale maxWidth : ℚ) (st : GenState) (line : List Char) :
    GenState :=
  wordsLoop scale maxWidth 0 (splitOnChar spaceChar line) st [] 0

/-- `add_text` (`src/main.py:2655-2713`): split the block on newlines and
lay out each literal line independently.  `scale` and the available width
are computed once from the state at call time, as in the source. -/
def add_text (st : GenState) (text : String) : GenState :=
  let scale : ℚ := (st.font_size : ℚ) / st.font.units_per_em
  let maxWidth : ℚ := (st.page_width : ℚ) - 2 * st.margin_left
  (splitOnChar newlineChar text.data).foldl (processLine scale maxWidth) st

/-- One caller-visible mutation of the generator, for quantifying over
"any sequence of add_text/set_font_size calls". -/
inductive PdfOp where
  | text (s : String)
  | size (n : ℕ)

/-- Applies one operation to the generator state. -/
def applyOp (st : GenState) : PdfOp → GenState
  | .text s => add_text st s
  | .size n => set_font_size st n

/-- A document build: a fresh generator, then any sequence of operations. -/
def runOps (font : TTFFont) (ops : List PdfOp) : GenState :=
  ops.foldl applyOp (pdfGenInit font)

/-- Output buffer plus the xref bookkeeping of `get_pdf_bytes`
(`self.buffer`, `self.obj_offsets`, `self.obj_count`). -/
structure Writer where
  buffer : List ℕ
  obj_offsets : List ℕ
  obj_count : ℕ

/-- The fresh `io.BytesIO()` / empty bookkeeping at the top of
`get_pdf_bytes` (`src/main.py:2739-2741`). -/
def initWriter : Writer := ⟨[], [], 0⟩

/-- The local `write` helper (`src/main.py:2743-2744`). -/
def wwrite (w : Writer) (d : List ℕ) : Writer :=
  { w with buffer := w.buffer ++ d }

/-- The local `start_obj` helper (`src/main.py:2746-2750`): bump the object
counter, record the current byte offset, write the `N 0 obj` header. -/
def start_obj (w : Writer) : Writer :=
  let w1 := { w with
    obj_count := w.obj_count + 1
    obj_offsets := w.obj_offsets ++ [w.buffer.length] }
  wwrite w1 (asciiBytes (toString w1.obj_count ++ " 0 obj\n"))

/-- The local `end_obj` helper (`src/main.py:2752-2753`). -/
def end_obj (w : Writer) : Writer :=
  wwrite w (asciiBytes "\nendobj\n")

/-- One `start_obj(); write(body); end_obj()` group; every object of
`get_pdf_bytes` is emitted through exactly this sequence. -/
def emitObj (w : Writer) (body : List ℕ) : Writer :=
  end_obj (wwrite (start_obj w) body)

/-- `%PDF-1.4` header plus the binary-marker comment
(`src/main.py:2756`). -/
def headerBytes : List ℕ :=
  asciiBytes "%PDF-1.4\n" ++ [37, 226, 227, 207, 211, 10]

/-- Page sealing at the top of `get_pdf_bytes` (`src/main.py:2730-2737`):
close the still-open content stream, then substitute the dummy page when no
content stream exists at all. -/
def finalPages (gen : GenState) : List String :=
  let pages :=
    if gen.current_content ≠ [] then
      gen.pages_content ++ [String.join gen.current_content ++ "ET\n"]
    else gen.pages_content
  if pages = [] then ["BT /F1 12 Tf ET\n"] else pages

/-- The consecutive-run loop building the `W` array blocks
(`src/main.py:2805-2822`): `blocks` is `w_array` (kept as numbers),
`cur` is `current_block`, `bstart` is `block_start`, `prev` is
`prev_gid` (an `int`, `sorted[0] - 1` initially, hence `ℤ`). -/
def wLoop (f : TTFFont) :
    List ℕ → List (ℕ × List ℕ) → List ℕ → ℕ → ℤ → List (ℕ × List ℕ)
  | [], blocks, cur, bstart, _ =>
    if cur = [] then blocks else blocks ++ [(bstart, cur)]
  | g :: rest, blocks, cur, bstart, prev =>
    if (g : ℤ) ≠ prev + 1 then
      wLoop f rest (blocks ++ [(bstart, cur)]) [f.get_width g] g (g : ℤ)
    else
      wLoop f rest blocks (cur ++ [f.get_width g]) bstart (g : ℤ)

/-- `W` array construction from the sorted used glyph ids
(`src/main.py:2803-2822`). -/
def buildWBlocks (f : TTFFont) (sortedGids : List ℕ) : List (ℕ × List ℕ) :=
  match sortedGids with
  | [] => []
  | g0 :: _ => wLoop f sortedGids [] [] g0 ((g0 : ℤ) - 1)

/-- Formatting of one block: `f"{block_start} [{' '.join(...)}]"`. -/
def wEntryStr (b : ℕ × List ℕ) : String :=
  toString b.1 ++ " [" ++ String.intercalate " " (b.2.map toString) ++ "]"

/-- The sorted list `sorted(list(self.used_gids))`. -/
def sortedGids (gen : GenState) : List ℕ :=
  gen.used_gids.sort (· ≤ ·)

/-- `w_str` (`src/main.py:2824`). -/
def wString (gen : GenState) : String :=
  String.intercalate " "
    ((buildWBlocks gen.font (sortedGids gen)).map wEntryStr)

/-- Splits a list into chunks of `n` (the `range(0, len, 100)` loop of the
ToUnicode emission). -/
def chunksGo (n : ℕ) : ℕ → List ℕ → List (List ℕ)
  | 0, _ => []
  | _, [] => []
  | fuel + 1, x :: xs => (x :: xs).take n :: chunksGo n fuel (xs.drop (n - 1))

/-- Entry point: the fuel `l.length` always suffices since every step
consumes at least one element (the chunk size used is 100). -/
def chunks (n : ℕ) (l : List ℕ) : List (List ℕ) :=
  chunksGo n l.length l

/-- The `bfchar` groups of the ToUnicode CMap (`src/main.py:2869-2880`),
chunked 100 entries per group.  The Python code iterates
`list(self.used_gids)` whose order is implementation-defined for a `set`;
the model fixes the ascending order.  (No claim depends on this order.) -/
def bfcharLines (f : TTFFont) (gids : List ℕ) : List String :=
  (chunks 100 gids).foldr
    (fun chunk acc =>
      (toString chunk.length ++ " beginbfchar") ::
        chunk.map (fun gid =>
          "<" ++ hex4 gid ++ "> <" ++
            hex4 ((dlookup gid f.gid_to_unicode).getD 0) ++ ">") ++
        ("endbfchar" :: acc))
    []

/-- `cmap_data` (`src/main.py:2857-2887`): the full ToUnicode CMap text. -/
def cmapData (gen : GenState) : String :=
  String.intercalate "\n"
    (["/CIDInit /ProcSet findresource begin",
      "12 dict begin",
      "begincmap",
      "/CIDSystemInfo << /Registry (Adobe) /Ordering (UCS) /Supplement 0 >> def",
      "/CMapName /Adobe-Identity-UCS def",
      "/CMapType 2 def",
      "1 begincodespacerange",
      "<0000> <FFFF>",
      "endcodespacerange"] ++
      bfcharLines gen.font (sortedGids gen) ++
      ["endcmap",
       "CMapName currentdict /CMap defineresource pop",
       "end",
       "end"])

/-- Object 1, the catalog (`src/main.py:2764-2766`). -/
def catalogBody : List ℕ :=
  asciiBytes "<< /Type /Catalog /Pages 2 0 R >>"

/-- Object 2, the pages root (`src/main.py:2780-2783`); page objects are
numbered from 8. -/
def pagesRootBody (numPages : ℕ) : List ℕ :=
  asciiBytes ("<< /Type /Pages /Kids [" ++
    String.intercalate " "
      ((List.range numPages).map (fun i => toString (8 + i) ++ " 0 R")) ++
    "] /Count " ++ toString numPages ++ " >>")

/-- Object 3, the composite Type0 font (`src/main.py:2786-2795`). -/
def type0Body : List ℕ :=
  asciiBytes ("<< \n/Type /Font \n/Subtype /Type0 \n/BaseFont /DejaVuSans " ++
    "\n/Encoding /Identity-H \n/DescendantFonts [4 0 R] " ++
    "\n/ToUnicode 6 0 R \n>>")

/-- Object 4, the CIDFontType2 with the `W` array
(`src/main.py:2798-2835`). -/
def cidBody (gen : GenState) : List ℕ :=
  asciiBytes ("<< \n/Type /Font \n/Subtype /CIDFontType2 " ++
    "\n/BaseFont /DejaVuSans \n/CIDSystemInfo << /Registry (Adobe) " ++
    "/Ordering (Identity) /Supplement 0 >> \n/FontDescriptor 5 0 R " ++
    "\n/DW 1000 \n/W [" ++ wString gen ++ "] \n>>")

/-- Object 5, the font descriptor (`src/main.py:2838-2852`). -/
def descBody (gen : GenState) : List ℕ :=
  asciiBytes ("<< \n/Type /FontDescriptor \n/FontName /DejaVuSans " ++
    "\n/Flags 4 \n/FontBBox [" ++ toString gen.font.bbox.1 ++ " " ++
    toString gen.font.bbox.2.1 ++ " " ++ toString gen.font.bbox.2.2.1 ++
    " " ++ toString gen.font.bbox.2.2.2 ++ "] \n/ItalicAngle 0 \n/Ascent " ++
    toString gen.font.ascent ++ " \n/Descent " ++ toString gen.font.descent ++
    " \n/CapHeight " ++ toString gen.font.cap_height ++
    " \n/StemV 80 \n/FontFile2 7 0 R \n>>")

/-- Object 6, the ToUnicode CMap stream (`src/main.py:2855-2891`). -/
def toUnicodeBody (gen : GenState) : List ℕ :=
  asciiBytes ("<< /Length " ++ toString (cmapData gen).length ++
    " >>\nstream\n" ++ cmapData gen ++ "\nendstream")

/-- Object 7, the embedded font program (`src/main.py:2894-2898`): the raw
font bytes verbatim. -/
def fontFileBody (gen : GenState) : List ℕ :=
  asciiBytes ("<< /Length " ++ toString gen.font.data.length ++
    " >>\nstream\n") ++ gen.font.data ++ asciiBytes "\nendstream"

/-- One page object (`src/main.py:2906-2908`); content objects are
numbered from `8 + numPages`. -/
def pageBody (gen : GenState) (numPages i : ℕ) : List ℕ :=
  asciiBytes ("<< /Type /Page /Parent 2 0 R /MediaBox [0 0 " ++
    toString gen.page_width ++ " " ++ toString gen.page_height ++
    "] /Contents " ++ toString (8 + numPages + i) ++
    " 0 R /Resources << /Font << /F1 3 0 R >> >> >>")

/-- One content stream object (`src/main.py:2912-2915`). -/
def contentBody (c : String) : List ℕ :=
  asciiBytes ("<< /Length " ++ toString c.length ++ " >>\nstream\n" ++ c ++
    "\nendstream")

/-- The bodies of all objects of `get_pdf_bytes`, in emission order
(`src/main.py:2763-2916`): catalog, pages root, Type0 font, CIDFontType2,
font descriptor, ToUnicode, font file, then one page object and one content
stream object per page. -/
def objBodies (gen : GenState) : List (List ℕ) :=
  let pages := finalPages gen
  let n := pages.length
  [catalogBody, pagesRootBody n, type0Body, cidBody gen, descBody gen,
    toUnicodeBody gen, fontFileBody gen] ++
  (List.range n).map (pageBody gen n) ++
  pages.map contentBody

/-- Python `f"{offset:010d}"`. -/
def pad10 (n : ℕ) : String :=
  String.mk (List.replicate (10 - (toString n).length) (Char.ofNat 48)) ++
    toString n

/-- The xref table and trailer (`src/main.py:2918-2931`), written after the
objects; `xrefOff` is `self.buffer.tell()` at that point. -/
def xrefAndTrailer (w : Writer) : String :=
  "xref\n" ++ "0 " ++ toString (w.obj_count + 1) ++ "\n" ++
  "0000000000 65535 f \n" ++
  String.join (w.obj_offsets.map (fun o => pad10 o ++ " 00000 n \n")) ++
  "trailer\n" ++ "<< /Size " ++ toString (w.obj_count + 1) ++
  " /Root 1 0 R >>\n" ++ "startxref\n" ++ toString w.buffer.length ++
  "\n" ++ "%%EOF\n"

/-- `get_pdf_bytes` (`src/main.py:2729-2933`) as a writer-state function:
header, the objects in order, xref, trailer. -/
def serialize (gen : GenState) : Writer :=
  let w1 := (objBodies gen).foldl emitObj (wwrite initWriter headerBytes)
  wwrite w1 (asciiBytes (xrefAndTrailer w1))

/-- The byte buffer `get_pdf_bytes` returns. -/
def get_pdf_bytes (gen : GenState) : List ℕ :=
  (serialize gen).buffer

/-- Decompression of the `W` array blocks into explicit
(glyph id, width) pairs: block `(s, [w0, w1, ...])` stands for
`s ↦ w0, s+1 ↦ w1, ...` per the PDF `W` array syntax. -/
def decoRun : ℕ → List ℕ → List (ℕ × ℕ)
  | _, [] => []
  | b, w :: ws => (b, w) :: decoRun (b + 1) ws

/-- All (glyph id, width) pairs denoted by a `W` array block list. -/
def decoW (blocks : List (ℕ × List ℕ)) : List (ℕ × ℕ) :=
  (blocks.map (fun b => decoRun b.1 b.2)).flatten

/-- The xref-correctness property of a writer state: every recorded object
offset points at the bytes `N 0 obj` of the corresponding object. -/
def XrefPointsAtObjs (w : Writer) : Prop :=
  ∀ i, i < w.obj_offsets.length →
    ∃ t, asciiBytes (toString (i + 1) ++ " 0 obj") ++ t =
      w.buffer.drop (w.obj_offsets.getD i 0)

/-- Internal invariant maintained by the writer helpers: the object count
matches the offset table, and every recorded offset lies inside the buffer
and points at its object's `N 0 obj` header. -/
def XrefInv (w : Writer) : Prop :=
  w.obj_count = w.obj_offsets.length ∧
  ∀ i, i < w.obj_offsets.length →
    w.obj_offsets.getD i 0 ≤ w.buffer.length ∧
    ∃ t, asciiBytes (toString (i + 1) ++ " 0 obj") ++ t =
      w.buffer.drop (w.obj_offsets.getD i 0)

/-- Invariant of the two cmap dictionaries during format-4 parsing: no
codepoint maps to glyph id 0, and every glyph id appearing as a `cmap`
value has an entry in the inverse table. -/
def CmapGood (acc : CmapAcc) : Prop :=
  (∀ c g, dlookup c acc.cmap = some g → g ≠ 0) ∧
  (∀ c g, dlookup c acc.cmap = some g →
    ∃ c2, dlookup g acc.inv = some c2)

/-- A concrete format-4 cmap subtable (fed to `parse_cmap_format_4` at
offset 0): three segments — `[65,65]` with delta `-60`, `[66,66]` with
delta `-61` (so both codepoints 65 and 66 map to glyph id 5), and the
`0xFFFF` sentinel.  All `idRangeOffset` entries are 0. -/
def testCmapBytes : List ℕ :=
  [0, 4, 0, 40, 0, 0, 0, 6, 0, 0, 0, 0, 0, 0,
   0, 65, 0, 66, 255, 255,
   0, 0,
   0, 65, 0, 66, 255, 255,
   255, 196, 255, 195, 0, 1,
   0, 0, 0, 0, 0, 0]

/-- The dictionaries produced by parsing `testCmapBytes`: codepoints 65 and
66 both map to glyph 5; the inverse table keeps only the last writer, 66. -/
def testCmapAcc : CmapAcc :=
  CmapAcc.mk [(65, 5), (66, 5)] [(5, 66)]

/-! ## Helper lemmas -/

theorem getD_append_lt {α : Type} (l l2 : List α) (d : α) :
    ∀ i, i < l.length → (l ++ l2).getD i d = l.getD i d := by
  induction l with
  | nil => intro i h; simp at h
  | cons a t ih =>
    intro i h
    cases i with
    | zero => rfl
    | succ j =>
      simp only [List.cons_append, List.getD_cons_succ]
      exact ih j (by simpa using h)

theorem getD_append_len {α : Type} (l : List α) (x d : α) :
    (l ++ [x]).getD l.length d = x := by
  induction l with
  | nil => rfl
  | cons a t ih => simp [ih]

theorem drop_append_of_le {α : Type} (l m : List α) (o : ℕ)
    (h : o ≤ l.length) : (l ++ m).drop o = l.drop o ++ m :=
  List.drop_append_of_le_length h

/-- When the current line is empty the wrap guard of the word loop is
false (its right conjunct fails), regardless of the width comparison:
the step just appends the word to the line. -/
theorem wordsLoop_cons_nil_cur (scale maxWidth : ℚ) (i : ℕ)
    (w : List Char) (ws : List (List Char)) (st : GenState) (curWidth : ℚ) :
    wordsLoop scale maxWidth i (w :: ws) st [] curWidth =
      wordsLoop scale maxWidth (i + 1) ws
        (buildWord st scale (decide (0 < i)) w).1
        ([] ++ (buildWord st scale (decide (0 < i)) w).2.1)
        (curWidth + (buildWord st scale (decide (0 < i)) w).2.2) := by
  simp only [wordsLoop]
  rw [if_neg]
  rintro ⟨-, h⟩
  exact h rfl

/-! ## Claim C8 -/

/-- Claim C8: a codepoint with no cmap entry resolves to glyph id 0, and
the width lookup is total: it equals the recorded width when the glyph id
is in range, otherwise the last recorded width, otherwise 1000 — stated
via `List.getD` with the `getLastD 1000` fallback as default.  Widths are
natural numbers (parsed as uint16), hence never negative. -/
theorem c8_gid_zero_and_width_total (f : TTFFont) (c : ℕ)
    (h : dlookup c f.cmap = none) :
    f.get_gid c = 0 ∧
    ∀ gid, f.get_width gid =
      f.advance_widths.getD gid (f.advance_widths.getLastD 1000) := by
  constructor
  · unfold TTFFont.get_gid
    rw [h]
    rfl
  · intro gid
    unfold TTFFont.get_width
    by_cases hlt : gid < f.advance_widths.length
    · rw [dif_pos hlt, List.getD_eq_getElem f.advance_widths _ hlt]
      rfl
    · rw [dif_neg hlt, List.getD_eq_default]
      · cases hl : f.advance_widths.getLast? with
        | none => simp [List.getLastD_eq_getLast?, hl]
        | some w => simp [List.getLastD_eq_getLast?, hl]
      · omega

/-- Witness for C8 at the concrete test font and codepoint 66 (absent from
its cmap). -/
theorem c8_witness :
    testFontA.get_gid 66 = 0 ∧
    ∀ gid, testFontA.get_width gid =
      testFontA.advance_widths.getD gid
        (testFontA.advance_widths.getLastD 1000) :=
  c8_gid_zero_and_width_total testFontA 66 (by decide)

/-! ## Claim C6 -/

theorem set_font_size_line_height (st : GenState) (size : ℕ) :
    (set_font_size st size).line_height = 6 * size / 5 := by
  have hval : (set_font_size st size).line_height =
      ⌊(size : ℚ) * (6 / 5)⌋₊ := by
    unfold set_font_size
    by_cases h : st.current_content ≠ [] <;> simp [h]
  rw [hval]
  have : (size : ℚ) * (6 / 5) = ((6 * size : ℕ) : ℚ) / ((5 : ℕ) : ℚ) := by
    push_cast
    ring
  rw [this, Nat.floor_div_nat, Nat.floor_natCast]

/-- Counterexample to claim C6 as stated: at point size 3 the code's line
height is `int(3 * 1.2) = 3`, but `round(3 * 1.2) = 4`. -/
theorem c6_counterexample :
    ((set_font_size (pdfGenInit testFontA) 3).line_height : ℤ) ≠
      round ((3 : ℚ) * (6 / 5)) := by
  rw [set_font_size_line_height]
  have hr : round ((3 : ℚ) * (6 / 5)) = 4 := by norm_num [round_eq]
  rw [hr]
  decide

/-- Claim C6 (amended): the line height after `set_font_size pt` is
`int(pt * 1.2)` — the product truncated toward zero (for the non-negative
sizes the generator uses this is `6 * pt / 5` in integer division), not
rounded to nearest. -/
theorem c6_line_height_truncates (st : GenState) (size : ℕ) :
    (set_font_size st size).line_height = 6 * size / 5 :=
  set_font_size_line_height st size

/-! ## Claim C3 -/

/-- Counterexample to claim C3 as stated: on malformed font bytes (the
empty byte string) `TTFFont` parsing fails, but `SimplePDFGenerator`'s
constructor swallows the exception and returns normally with no font
loaded (`pdfInitFont` is a total function returning `none`); no distinct
error is propagated to the caller at that point. -/
theorem c3_counterexample :
    ttfParse [] = .error () ∧ pdfInitFont [] = none := by
  constructor <;> rfl

/-- Claim C3 (amended): when the font bytes are malformed, `TTFFont`
parsing raises a generic error and no partial font is produced, but
`SimplePDFGenerator.__init__` catches the exception and continues with
`font_loaded = False` (no font value) instead of propagating a distinct
error; later calls that touch `self.font` then fail with a generic
`AttributeError`. -/
theorem c3_parse_error_swallowed (data : List ℕ)
    (h : ttfParse data = .error ()) : pdfInitFont data = none := by
  unfold pdfInitFont
  rw [h]

/-- Witness for the amended C3 at the concrete malformed input `[]`. -/
theorem c3_witness : pdfInitFont [] = none :=
  c3_parse_error_swallowed [] rfl

/-! ## Claim C2 -/

/-- Claim C2: on a fresh generator over the test font (where 'A' maps to
glyph 5 of width 600/1000 em), `add_text "AA"` emits exactly one line: the
content stream of the open page is the initial font selection followed by
a single text-show instruction at `x = 50`, `y = 792 - 50 = 742`, whose
hex string is `<00050005>`; no page was flushed and the cursor advanced by
one line height. -/
theorem c2_concrete_scenario :
    (add_text (pdfGenInit testFontA) "AA").current_content =
      ["BT /F1 10 Tf\n", "1 0 0 1 50 742 Tm <00050005> Tj\n"] ∧
    (add_text (pdfGenInit testFontA) "AA").pages_content = [] ∧
    (add_text (pdfGenInit testFontA) "AA").y = 792 - 50 - 12 := by
  refine ⟨?_, ?_, ?_⟩ <;>
  · simp only [add_text, processLine]
    rw [show splitOnChar newlineChar "AA".data =
      [[Char.ofNat 65, Char.ofNat 65]] from rfl]
    simp only [List.foldl_cons, List.foldl_nil, processLine]
    rw [show splitOnChar spaceChar [Char.ofNat 65, Char.ofNat 65] =
      [[Char.ofNat 65, Char.ofNat 65]] from rfl]
    rw [wordsLoop_cons_nil_cur]
    simp only [wordsLoop]
    rfl

/-! ## Claim C10 -/

/-- Claim C10: flushing an empty glyph list is a complete no-op
(`_write_line_gids` returns before touching the cursor, the content stream
or the pages list), an empty literal line is processed to an unchanged
state, and adding empty text leaves the generator unchanged — blank lines
in the input produce no output and no vertical gap. -/
theorem c10_empty_line_frame (st : GenState) (scale maxWidth : ℚ) :
    write_line_gids st [] = st ∧
    processLine scale maxWidth st [] = st ∧
    add_text st "" = st := by
  have hp : ∀ (sc mw : ℚ) (s : GenState), processLine sc mw s [] = s := by
    intro sc mw s
    show wordsLoop sc mw 0 (splitOnChar spaceChar []) s [] 0 = s
    rw [show splitOnChar spaceChar [] = [[]] from rfl]
    rw [wordsLoop_cons_nil_cur]
    rfl
  refine ⟨rfl, hp scale maxWidth st, ?_⟩
  show (splitOnChar newlineChar "".data).foldl _ st = st
  rw [show splitOnChar newlineChar "".data = [[]] from rfl]
  simp only [List.foldl_cons, List.foldl_nil]
  exact hp _ _ st

/-! ## Claims C7 and C9: cmap parsing invariants -/

theorem dlookup_dinsert {α β : Type} [DecidableEq α] (k : α) (v : β)
    (m : List (α × β)) (k2 : α) :
    dlookup k2 (dinsert k v m) =
      if k2 = k then some v else dlookup k2 m := by
  induction m with
  | nil => simp [dinsert, dlookup]
  | cons p rest ih =>
    obtain ⟨a, b⟩ := p
    simp only [dinsert]
    by_cases hak : a = k
    · subst hak
      by_cases h2 : k2 = a <;> simp [dlookup, h2]
    · rw [if_neg hak]
      by_cases h2 : k2 = a
      · subst h2
        simp [dlookup, hak]
      · simp [dlookup, h2, ih]

theorem cmapGood_empty : CmapGood (CmapAcc.mk [] []) := by
  constructor <;> intro c g h <;> simp [dlookup] at h

theorem cmapGood_insert (acc : CmapAcc) (cc gid : ℕ) (hg : gid ≠ 0)
    (h : CmapGood acc) :
    CmapGood (CmapAcc.mk (dinsert cc gid acc.cmap)
      (dinsert gid cc acc.inv)) := by
  constructor
  · intro c g hl
    rw [dlookup_dinsert] at hl
    by_cases hc : c = cc
    · rw [if_pos hc] at hl
      cases hl
      exact hg
    · rw [if_neg hc] at hl
      exact h.1 c g hl
  · intro c g hl
    rw [dlookup_dinsert] at hl
    show ∃ c2, dlookup g (dinsert gid cc acc.inv) = some c2
    rw [dlookup_dinsert]
    by_cases hc : c = cc
    · rw [if_pos hc] at hl
      cases hl
      exact ⟨cc, by rw [if_pos rfl]⟩
    · rw [if_neg hc] at hl
      by_cases hgg : g = gid
      · exact ⟨cc, by rw [if_pos hgg]⟩
      · rw [if_neg hgg]
        exact h.2 c g hl

theorem mapChars_good (data : List ℕ) (offset length iroLoc : ℕ)
    (delta : ℤ) (rangeOff start : ℕ) :
    ∀ (n cc : ℕ) (acc acc2 : CmapAcc), CmapGood acc →
      mapChars data offset length iroLoc delta rangeOff start cc n acc =
        .ok acc2 → CmapGood acc2 := by
  intro n
  induction n with
  | zero =>
    intro cc acc acc2 hg h
    simp only [mapChars] at h
    cases h
    exact hg
  | succ m ih =>
    intro cc acc acc2 hg h
    simp only [mapChars] at h
    split at h
    · exact Except.noConfusion h
    · rename_i gid _
      by_cases hz : gid ≠ 0
      · rw [if_pos hz] at h
        exact ih (cc + 1) _ acc2 (cmapGood_insert acc cc gid hz hg) h
      · rw [if_neg hz] at h
        exact ih (cc + 1) acc acc2 hg h

theorem mapSegs_good (data : List ℕ) (offset length iroStart : ℕ) :
    ∀ (segs : List (ℕ × ℕ × ℤ × ℕ)) (i : ℕ) (acc acc2 : CmapAcc),
      CmapGood acc →
      mapSegs data offset length iroStart i segs acc = .ok acc2 →
      CmapGood acc2 := by
  intro segs
  induction segs with
  | nil =>
    intro i acc acc2 hg h
    simp only [mapSegs] at h
    cases h
    exact hg
  | cons seg rest ih =>
    intro i acc acc2 hg h
    obtain ⟨s, e, d, ro⟩ := seg
    simp only [mapSegs] at h
    by_cases hs : s = 65535
    · rw [if_pos hs] at h
      cases h
      exact hg
    · rw [if_neg hs] at h
      split at h
      · exact Except.noConfusion h
      · rename_i acc1 hm
        exact ih (i + 1) acc1 acc2
          (mapChars_good data offset length (iroStart + i * 2) d ro s _ s
            acc acc1 hg hm) h

theorem parse_cmap_format_4_good (data : List ℕ) (offset : ℕ)
    (acc : CmapAcc) (h : parse_cmap_format_4 data offset = .ok acc) :
    CmapGood acc := by
  unfold parse_cmap_format_4 at h
  split at h
  · exact Except.noConfusion h
  · split at h
    · exact Except.noConfusion h
    · split at h
      · exact Except.noConfusion h
      · split at h
        · exact Except.noConfusion h
        · split at h
          · exact Except.noConfusion h
          · split at h
            · exact Except.noConfusion h
            · exact mapSegs_good data offset _ _ _ 0
                (CmapAcc.mk [] []) acc cmapGood_empty h

/-- Claim C7: format-4 cmap parsing never records glyph id 0 — after any
successful parse, no codepoint looks up to glyph 0 in `codepointToGlyph`
(computed glyph 0 is treated as unmapped and skipped, so no entry is ever
written, let alone overwritten, with glyph 0). -/
theorem c7_no_glyph_zero (data : List ℕ) (offset : ℕ) (acc : CmapAcc)
    (h : parse_cmap_format_4 data offset = .ok acc) :
    ∀ c, dlookup c acc.cmap ≠ some 0 := by
  intro c hc
  exact (parse_cmap_format_4_good data offset acc h).1 c 0 hc rfl

/-- Witness for C7 at the concrete subtable `testCmapBytes`. -/
theorem c7_witness : dlookup 65 testCmapAcc.cmap ≠ some 0 :=
  c7_no_glyph_zero testCmapBytes 0 testCmapAcc (by rfl) 65

/-- Counterexample to claim C9 as stated: parsing `testCmapBytes` maps
both codepoints 65 and 66 to glyph 5, and the inverse table (last write
wins) holds `glyphToCodepoint[5] = 66`, so for `codepointToGlyph[65] = 5`
the claimed `glyphToCodepoint[5] = 65` fails. -/
theorem c9_counterexample :
    parse_cmap_format_4 testCmapBytes 0 = .ok testCmapAcc ∧
    dlookup 65 testCmapAcc.cmap = some 5 ∧
    dlookup 5 testCmapAcc.inv ≠ some 65 := by
  refine ⟨rfl, rfl, ?_⟩
  decide

/-- Claim C9 (amended): if `codepointToGlyph[c] = g` after parsing, then
`g` is in the domain of `glyphToCodepoint` — `glyphToCodepoint[g]` is some
codepoint (the last one parsed that maps to `g`), but not necessarily `c`
when several codepoints share the glyph. -/
theorem c9_inverse_domain (data : List ℕ) (offset : ℕ) (acc : CmapAcc)
    (h : parse_cmap_format_4 data offset = .ok acc) :
    ∀ c g, dlookup c acc.cmap = some g →
      ∃ c2, dlookup g acc.inv = some c2 := by
  exact (parse_cmap_format_4_good data offset acc h).2

/-- Witness for the amended C9 at the concrete subtable. -/
theorem c9_witness : ∃ c2, dlookup 5 testCmapAcc.inv = some c2 :=
  c9_inverse_domain testCmapBytes 0 testCmapAcc (by rfl) 65 5 (by rfl)

/-! ## Claim C4: W array widths -/

theorem decoRun_append_one (ws : List ℕ) (x : ℕ) :
    ∀ b, decoRun b (ws ++ [x]) = decoRun b ws ++ [(b + ws.length, x)] := by
  induction ws with
  | nil => intro b; simp [decoRun]
  | cons w t ih =>
    intro b
    have hlen : b + (w :: t).length = b + 1 + t.length := by
      simp
      omega
    calc decoRun b ((w :: t) ++ [x])
        = (b, w) :: decoRun (b + 1) (t ++ [x]) := rfl
      _ = (b, w) :: (decoRun (b + 1) t ++ [(b + 1 + t.length, x)]) := by
          rw [ih (b + 1)]
      _ = decoRun b (w :: t) ++ [(b + (w :: t).length, x)] := by
          rw [hlen]
          rfl

theorem decoW_append (a b : List (ℕ × List ℕ)) :
    decoW (a ++ b) = decoW a ++ decoW b := by
  simp [decoW]

/-- The run-compression loop, decompressed, lists exactly one width entry
per processed glyph id, in order, each equal to `get_width`. -/
theorem wLoop_deco (f : TTFFont) :
    ∀ (l : List ℕ) (blocks : List (ℕ × List ℕ)) (cur : List ℕ)
      (bstart : ℕ) (prev : ℤ), prev = (bstart : ℤ) + cur.length - 1 →
      decoW (wLoop f l blocks cur bstart prev) =
        decoW blocks ++ decoRun bstart cur ++
          l.map (fun g => (g, f.get_width g)) := by
  intro l
  induction l with
  | nil =>
    intro blocks cur bstart prev hprev
    simp only [wLoop]
    by_cases hc : cur = []
    · rw [if_pos hc, hc]
      simp [decoRun]
    · rw [if_neg hc, decoW_append]
      simp [decoW]
  | cons g rest ih =>
    intro blocks cur bstart prev hprev
    simp only [wLoop]
    by_cases hne : (g : ℤ) ≠ prev + 1
    · rw [if_pos hne, ih (blocks ++ [(bstart, cur)]) [f.get_width g] g
        (g : ℤ) (by simp [decoRun])]
      rw [decoW_append]
      simp only [decoW, List.map_cons, List.map_nil, List.flatten_cons,
        List.flatten_nil, List.append_nil, decoRun, List.map]
      simp
    · rw [if_neg hne]
      push_neg at hne
      have hg : g = bstart + cur.length := by omega
      rw [ih blocks (cur ++ [f.get_width g]) bstart (g : ℤ)
        (by simp; omega)]
      rw [decoRun_append_one, ← hg]
      simp

/-- Decompressing the blocks built from a glyph-id list yields exactly the
per-gid width association. -/
theorem buildW_deco (f : TTFFont) (l : List ℕ) :
    decoW (buildWBlocks f l) = l.map (fun g => (g, f.get_width g)) := by
  cases l with
  | nil => rfl
  | cons g0 t =>
    unfold buildWBlocks
    rw [wLoop_deco f (g0 :: t) [] [] g0 ((g0 : ℤ) - 1) (by simp)]
    simp [decoW, decoRun]

theorem dlookup_map_self (wf : ℕ → ℕ) :
    ∀ (l : List ℕ) (g : ℕ), g ∈ l →
      dlookup g (l.map (fun x => (x, wf x))) = some (wf g) := by
  intro l
  induction l with
  | nil => intro g h; cases h
  | cons a t ih =>
    intro g h
    simp only [List.map_cons, dlookup]
    by_cases hg : g = a
    · subst hg
      simp
    · rw [if_neg hg]
      exact ih g (by
        cases h with
        | head => exact absurd rfl hg
        | tail _ ht => exact ht)

/-- Claim C4: for every glyph id in `used_gids` at serialization time, the
width entry recorded for it in the `W` array of the CIDFontType2 object
(the blocks built by `buildWBlocks` on the sorted used gids, decompressed
per the PDF `firstGid [w0 w1 ...]` reading) is exactly
`TTFFont.get_width gid` — an integer in font units, no rounding. -/
theorem c4_w_array_widths (gen : GenState) (g : ℕ)
    (h : g ∈ gen.used_gids) :
    dlookup g (decoW (buildWBlocks gen.font (sortedGids gen))) =
      some (gen.font.get_width g) := by
  rw [buildW_deco]
  exact dlookup_map_self (gen.font.get_width) (sortedGids gen) g
    ((Finset.mem_sort (α := ℕ) (· ≤ ·)).2 h)

/-- Witness for C4: glyph id 0 on the fresh generator. -/
theorem c4_witness :
    dlookup 0 (decoW (buildWBlocks (pdfGenInit testFontA).font
      (sortedGids (pdfGenInit testFontA)))) =
      some ((pdfGenInit testFontA).font.get_width 0) :=
  c4_w_array_widths (pdfGenInit testFontA) 0 (by decide)

/-! ## Claims C1 and C5: serializer and xref table -/

theorem asciiBytes_append (s t : String) :
    asciiBytes (s ++ t) = asciiBytes s ++ asciiBytes t := by
  simp [asciiBytes]

theorem objHeaderSplit (n : ℕ) :
    asciiBytes (toString n ++ " 0 obj\n") =
      asciiBytes (toString n ++ " 0 obj") ++ asciiBytes "\n" := by
  rw [← asciiBytes_append, String.append_assoc]
  rfl

/-- A prefix located at an in-range offset of the buffer survives any
append at the end of the buffer. -/
theorem drop_prefix_extend (buf d p : List ℕ) (o : ℕ)
    (hb : o ≤ buf.length) (h : ∃ t, p ++ t = buf.drop o) :
    ∃ t, p ++ t = (buf ++ d).drop o := by
  obtain ⟨t, ht⟩ := h
  exact ⟨t ++ d, by rw [drop_append_of_le _ _ _ hb, ← ht, List.append_assoc]⟩

theorem xrefInv_init : XrefInv initWriter := by
  constructor
  · rfl
  · intro i hi
    simp [initWriter] at hi

theorem xrefInv_wwrite (w : Writer) (d : List ℕ) (h : XrefInv w) :
    XrefInv (wwrite w d) := by
  obtain ⟨hc, hall⟩ := h
  refine ⟨hc, ?_⟩
  intro i hi
  obtain ⟨hb, hpre⟩ := hall i hi
  refine ⟨?_, ?_⟩
  · simp only [wwrite, List.length_append]
    omega
  · exact drop_prefix_extend _ _ _ _ hb hpre

theorem xrefInv_start_obj (w : Writer) (h : XrefInv w) :
    XrefInv (start_obj w) := by
  obtain ⟨hc, hall⟩ := h
  unfold start_obj wwrite
  constructor
  · simp [hc]
  · intro i hi
    simp only [List.length_append, List.length_cons, List.length_nil] at hi
    by_cases hlt : i < w.obj_offsets.length
    · obtain ⟨hb, hpre⟩ := hall i hlt
      simp only
      rw [getD_append_lt _ _ _ _ hlt]
      refine ⟨?_, ?_⟩
      · simp only [List.length_append]
        omega
      · exact drop_prefix_extend _ _ _ _ hb hpre
    · have hieq : i = w.obj_offsets.length := by omega
      subst hieq
      simp only
      rw [getD_append_len]
      refine ⟨?_, ⟨asciiBytes "\n", ?_⟩⟩
      · simp
      · rw [drop_append_of_le _ _ _ (le_refl _), List.drop_length,
          List.nil_append, ← hc, ← objHeaderSplit]

theorem xrefInv_end_obj (w : Writer) (h : XrefInv w) :
    XrefInv (end_obj w) :=
  xrefInv_wwrite w _ h

theorem xrefInv_emitObj (w : Writer) (b : List ℕ) (h : XrefInv w) :
    XrefInv (emitObj w b) :=
  xrefInv_end_obj _ (xrefInv_wwrite _ b (xrefInv_start_obj w h))

theorem xrefInv_foldl (bs : List (List ℕ)) :
    ∀ w, XrefInv w → XrefInv (bs.foldl emitObj w) := by
  induction bs with
  | nil => intro w h; exact h
  | cons b rest ih =>
    intro w h
    exact ih (emitObj w b) (xrefInv_emitObj w b h)

theorem xrefInv_serialize (gen : GenState) : XrefInv (serialize gen) := by
  unfold serialize
  exact xrefInv_wwrite _ _
    (xrefInv_foldl _ _ (xrefInv_wwrite initWriter headerBytes xrefInv_init))

theorem emitObj_offsets_len (w : Writer) (b : List ℕ) :
    (emitObj w b).obj_offsets.length = w.obj_offsets.length + 1 := by
  simp [emitObj, end_obj, wwrite, start_obj]

theorem foldl_emitObj_offsets_len (bs : List (List ℕ)) :
    ∀ w, ((bs.foldl emitObj w).obj_offsets.length) =
      w.obj_offsets.length + bs.length := by
  induction bs with
  | nil => intro w; simp
  | cons b rest ih =>
    intro w
    rw [List.foldl_cons, ih (emitObj w b), emitObj_offsets_len]
    simp only [List.length_cons]
    omega

theorem serialize_offsets_len (gen : GenState) :
    (serialize gen).obj_offsets.length = (objBodies gen).length := by
  unfold serialize
  show ((objBodies gen).foldl emitObj
    (wwrite initWriter headerBytes)).obj_offsets.length = _
  rw [foldl_emitObj_offsets_len]
  simp [wwrite, initWriter]

theorem objBodies_len (gen : GenState) :
    (objBodies gen).length = 7 + 2 * (finalPages gen).length := by
  simp [objBodies]
  omega

/-- Claim C1: for every document build — any sequence of
`add_text`/`set_font_size` operations on a fresh generator followed by one
`get_pdf_bytes` — and every object `N` in the produced PDF, the byte
offset recorded for object `N` in the xref bookkeeping points exactly at
the start of that object's `N 0 obj` token: the buffer at that offset
begins with the ASCII bytes of `"N 0 obj"`. -/
theorem c1_xref_offsets (font : TTFFont) (ops : List PdfOp) :
    XrefPointsAtObjs (serialize (runOps font ops)) := by
  intro i hi
  exact ((xrefInv_serialize (runOps font ops)).2 i hi).2

/-- Witness for C1: the empty build over the test font has at least one
object, and the offset recorded for object 1 points at `1 0 obj`. -/
theorem c1_witness :
    0 < (serialize (runOps testFontA [])).obj_offsets.length ∧
    ∃ t, asciiBytes (toString (0 + 1) ++ " 0 obj") ++ t =
      (serialize (runOps testFontA [])).buffer.drop
        ((serialize (runOps testFontA [])).obj_offsets.getD 0 0) := by
  have hlen : (serialize (runOps testFontA [])).obj_offsets.length = 9 := by
    rw [serialize_offsets_len, objBodies_len]
    rfl
  refine ⟨by rw [hlen]; norm_num, ?_⟩
  exact c1_xref_offsets testFontA [] 0 (by rw [hlen]; norm_num)

/-- Claim C5: a build with zero `add_text` calls still yields a document
with exactly one page whose content stream is the opening font-selection
instruction (`BT /F1 10 Tf`) plus the closing `ET`; the serializer emits
the fixed 7 font/catalog objects plus one page and one content object
(9 objects), and every xref offset points at its object header. -/
theorem c5_degenerate_document (font : TTFFont) :
    finalPages (pdfGenInit font) = ["BT " ++ "/F1 10 Tf" ++ "\nET\n"] ∧
    (serialize (pdfGenInit font)).obj_offsets.length = 9 ∧
    XrefPointsAtObjs (serialize (pdfGenInit font)) := by
  refine ⟨rfl, ?_, ?_⟩
  · rw [serialize_offsets_len, objBodies_len]
    rfl
  · intro i hi
    exact ((xrefInv_serialize (pdfGenInit font)).2 i hi).2

/-- Witness for C5 at the concrete test font, instantiating the xref
property at object 1. -/
theorem c5_witness :
    (serialize (pdfGenInit testFontA)).obj_offsets.length = 9 ∧
    ∃ t, asciiBytes (toString (0 + 1) ++ " 0 obj") ++ t =
      (serialize (pdfGenInit testFontA)).buffer.drop
        ((serialize (pdfGenInit testFontA)).obj_offsets.getD 0 0) := by
  refine ⟨(c5_degenerate_document testFontA).2.1, ?_⟩
  exact (c5_degenerate_document testFontA).2.2 0
    (by rw [(c5_degenerate_document testFontA).2.1]; norm_num)

end PdfGen
